import Mathlib

/-
Verification of the YOLO-label loading logic of `src/Practices/Final_Exercise.py`.

The Python program is embedded shallowly:

* a Python string is a `List Char` (named `Str`); `str` injects Lean string
  literals;
* `pyStrip` models `str.strip()` and `pySplit` models `str.split()` with no
  arguments (split on whitespace runs, dropping empty fields);
* `pyInt` models `int(token)` and `pyFloat` models `float(token)` on the plain
  signed decimal literals the label format uses (the model omits underscores,
  exponents and `inf`/`nan` spellings, which never occur in the repository's
  format); float values are modelled as exact rationals, which is faithful for
  every comparison made here since the code performs no arithmetic on them;
* a raised Python exception is the `Except.error` case of `Except PyExn`;
* the filesystem is an association list `FS` from paths to the list of lines of
  the file at that path; `lookupFS` models `open(path)` finding (or not
  finding) the file;
* `load_yolo_labels` embeds the function of the same name: it opens the file
  (raising `FileNotFoundError` when the path does not exist), then folds
  `processLine` over the lines, where `processLine` embeds one iteration of the
  `for line in f` body — skip a blank line, `int(parts[0])`, then the list
  comprehension `[(float(parts[i]), float(parts[i+1])) for i in range(1, len(parts), 2)]`
  which is embedded by `pyCoords` on the token list after the class id: the
  comprehension walks the tail two tokens at a time, raising `ValueError` when
  `float` fails and `IndexError` when `parts[i+1]` is past the end (Python
  evaluates `float(parts[i])` before indexing `parts[i + 1]`, so a `ValueError`
  on the left token wins over the `IndexError`);
* `dirLoop` embeds the module-level loop over `os.listdir(".labels")`: it
  filters names ending in `.txt`, joins them to the directory and calls
  `load_yolo_labels`; an exception escaping `load_yolo_labels` propagates and
  aborts the whole loop, which the fold in `Except` captures.
-/

abbrev Str := List Char

/-- Inject a Lean string literal as a Python string value. -/
def str (s : String) : Str := s.data

/-- The whitespace characters recognised by Python's `str.strip`/`str.split`. -/
def isSpace (c : Char) : Bool :=
  c == ' ' || c == '\t' || c == '\n' || c == '\r' || c.toNat == 11 || c.toNat == 12

/-- `line.strip()`: drop leading and trailing whitespace. -/
def pyStrip (s : Str) : Str :=
  ((s.dropWhile isSpace).reverse.dropWhile isSpace).reverse

/-- `s.split()` with no separator argument: split on runs of whitespace,
with no empty fields. -/
def pySplit (s : Str) : List Str :=
  (s.splitOnP isSpace).filter (fun t => !t.isEmpty)

/-- Value of a nonempty digit string. -/
def digitsToNat (ds : Str) : Nat :=
  ds.foldl (fun n c => 10 * n + (c.toNat - 48)) 0

def allDigits (ds : Str) : Bool := ds.all Char.isDigit

/-- `int(token)` after an optional sign has been removed: one or more digits. -/
def pyIntBody (ds : Str) : Option ℤ :=
  if !ds.isEmpty && allDigits ds then some (digitsToNat ds : ℤ) else none

/-- `int(token)`: an optionally signed decimal integer literal, `none` when
`int` would raise `ValueError`. -/
def pyInt (s : Str) : Option ℤ :=
  match s with
  | '-' :: rest => (pyIntBody rest).map (fun n => -n)
  | '+' :: rest => pyIntBody rest
  | _ => pyIntBody s

/-- `float(token)` after an optional sign has been removed: digits with at
most one decimal point and at least one digit overall. -/
def pyFloatBody (ds : Str) : Option ℚ :=
  match ds.splitOn '.' with
  | [ip] =>
      if !ip.isEmpty && allDigits ip then some (mkRat (digitsToNat ip) 1) else none
  | [ip, fp] =>
      if !(ip.isEmpty && fp.isEmpty) && allDigits ip && allDigits fp then
        some (mkRat (digitsToNat ip * 10 ^ fp.length + digitsToNat fp) (10 ^ fp.length))
      else none
  | _ => none

/-- `float(token)`: an optionally signed decimal literal, `none` when `float`
would raise `ValueError`. -/
def pyFloat (s : Str) : Option ℚ :=
  match s with
  | '-' :: rest => (pyFloatBody rest).map (fun q => -q)
  | '+' :: rest => pyFloatBody rest
  | _ => pyFloatBody s

/-- The Python exceptions the embedded code can raise. -/
inductive PyExn where
  | valueError
  | indexError
  | fileNotFoundError
deriving DecidableEq

deriving instance DecidableEq for Except

/-- One parsed label: `(cls_id, coords)` as built by the source. -/
abbrev Label := ℤ × List (ℚ × ℚ)

/-- The list comprehension
`[(float(parts[i]), float(parts[i + 1])) for i in range(1, len(parts), 2)]`,
applied to `parts[1:]`: the index `i` walks the odd positions of `parts`, so
the comprehension consumes the tail two tokens at a time.  A failing `float`
raises `ValueError`; a lone trailing token makes `parts[i + 1]` raise
`IndexError`, but only after `float(parts[i])` has been evaluated. -/
def pyCoords : List Str → Except PyExn (List (ℚ × ℚ))
  | [] => .ok []
  | [a] =>
      match pyFloat a with
      | none => .error .valueError
      | some _ => .error .indexError
  | a :: b :: rest =>
      match pyFloat a with
      | none => .error .valueError
      | some x =>
          match pyFloat b with
          | none => .error .valueError
          | some y => (pyCoords rest).map (fun ps => (x, y) :: ps)

/-- One iteration of the `for line in f` body of `load_yolo_labels`:
`if not line.strip(): continue`, then `parts = line.strip().split()`,
`cls_id = int(parts[0])`, the coordinate comprehension, and
`labels.append((cls_id, coords))`. -/
def processLine (labels : List Label) (line : Str) : Except PyExn (List Label) :=
  if pyStrip line = [] then .ok labels
  else
    match pySplit (pyStrip line) with
    | [] => .error .indexError
    | p0 :: rest =>
        match pyInt p0 with
        | none => .error .valueError
        | some clsId => (pyCoords rest).map (fun coords => labels ++ [(clsId, coords)])

/-- The filesystem: paths mapped to the lines of the file stored there. -/
abbrev FS := List (Str × List Str)

/-- `open(path)`: the file found at `path`, if any. -/
def lookupFS : FS → Str → Option (List Str)
  | [], _ => none
  | (p, ls) :: rest, q => if p = q then some ls else lookupFS rest q

/-- `load_yolo_labels(txt_path)`: open the file (raising `FileNotFoundError`
when it does not exist) and run the parsing loop over its lines, starting from
`labels = []`. -/
def load_yolo_labels (fs : FS) (txt_path : Str) : Except PyExn (List Label) :=
  match lookupFS fs txt_path with
  | none => .error .fileNotFoundError
  | some lines => lines.foldlM processLine []

def labels_dir : Str := str ".labels"

/-- `os.path.join(labels_dir, txt_path)` for a relative file name. -/
def pathJoin (d name : Str) : Str := d ++ '/' :: name

/-- The module-level loop: for each directory entry ending in `.txt`, in
listing order, call `load_yolo_labels` on the joined path and record the
result.  An exception raised by `load_yolo_labels` propagates, aborting the
remainder of the loop. -/
def dirLoop (fs : FS) (listing : List Str) : Except PyExn (List (Str × List Label)) :=
  listing.foldlM
    (fun acc name =>
      if List.isSuffixOf (str ".txt") name then
        (load_yolo_labels fs (pathJoin labels_dir name)).map
          (fun labels => acc ++ [(pathJoin labels_dir name, labels)])
      else .ok acc)
    []

/-- Pair up consecutive elements, as the coordinate comprehension does with
successfully parsed tokens. -/
def pairUp : List ℚ → List (ℚ × ℚ)
  | x :: y :: rest => (x, y) :: pairUp rest
  | _ => []

/-- A coordinate token as the spec's notion of a valid line requires it:
it parses as a float and the value lies in `[0, 1]`. -/
def validFloatToken (t : Str) : Bool :=
  match pyFloat t with
  | none => false
  | some q => decide ((0 : ℚ) ≤ q) && decide (q ≤ (1 : ℚ))

theorem pySplit_nil : pySplit [] = [] := rfl

theorem pyStrip_ne_nil_of_split {line : Str} {p0 : Str} {rest : List Str}
    (hsplit : pySplit (pyStrip line) = p0 :: rest) : pyStrip line ≠ [] := by
  intro h
  rw [h, pySplit_nil] at hsplit
  exact List.noConfusion hsplit

theorem pyCoords_ok (ts : List Str) (hall : ∀ t ∈ ts, (pyFloat t).isSome)
    (heven : ts.length % 2 = 0) :
    pyCoords ts = .ok (pairUp (ts.filterMap pyFloat)) := by
  match ts with
  | [] => rfl
  | [a] => simp at heven
  | a :: b :: rest =>
    obtain ⟨x, hxe⟩ := Option.isSome_iff_exists.mp (hall a (by simp))
    obtain ⟨y, hye⟩ := Option.isSome_iff_exists.mp (hall b (by simp))
    have hrest : ∀ t ∈ rest, (pyFloat t).isSome := fun t ht => hall t (by simp [ht])
    have heven2 : rest.length % 2 = 0 := by
      simp only [List.length_cons] at heven
      omega
    have ih := pyCoords_ok rest hrest heven2
    simp [pyCoords, hxe, hye, ih, List.filterMap_cons, pairUp, Except.map]

/-- Claim C3: for every valid line — first token an integer `class_id`,
followed by an even count ≥ 6 of float tokens each in `[0, 1]` —
`load_yolo_labels`'s line loop produces exactly one record whose class id and
coordinate pairs equal the parsed token values, and records no error. -/
theorem processLine_valid_line (labels : List Label) (line p0 : Str)
    (rest : List Str) (c : ℤ)
    (hsplit : pySplit (pyStrip line) = p0 :: rest)
    (hcls : pyInt p0 = some c)
    (heven : rest.length % 2 = 0)
    (hlen : 6 ≤ rest.length)
    (hfl : rest.all validFloatToken = true) :
    processLine labels line = .ok (labels ++ [(c, pairUp (rest.filterMap pyFloat))]) := by
  have hne := pyStrip_ne_nil_of_split hsplit
  have hall : ∀ t ∈ rest, (pyFloat t).isSome := by
    intro t ht
    have hv := List.all_eq_true.mp hfl t ht
    unfold validFloatToken at hv
    cases hpf : pyFloat t with
    | none => rw [hpf] at hv; exact absurd hv (by simp)
    | some q => simp
  have hco := pyCoords_ok rest hall heven
  unfold processLine
  rw [if_neg hne, hsplit]
  simp [hcls, hco, Except.map]

/-- Witness for C3, on the spec's scenario line `"0 0.1 0.2 0.3 0.4 0.5 0.6"`:
one record, class id 0, polygon `[(0.1, 0.2), (0.3, 0.4), (0.5, 0.6)]`. -/
theorem processLine_valid_line_witness :
    processLine [] (str "0 0.1 0.2 0.3 0.4 0.5 0.6") =
      .ok [((0 : ℤ),
        [(mkRat 1 10, mkRat 1 5), (mkRat 3 10, mkRat 2 5), (mkRat 1 2, mkRat 3 5)])] := by
  rw [processLine_valid_line [] (str "0 0.1 0.2 0.3 0.4 0.5 0.6") (str "0")
    [str "0.1", str "0.2", str "0.3", str "0.4", str "0.5", str "0.6"] 0
    (by rfl) (by rfl) (by rfl) (by decide) (by decide)]
  rfl

/-- Claim C9: a non-blank line consisting of a single token that parses as an
integer makes `load_yolo_labels` append a record with that class id and an
empty polygon, recording no error — zero coordinate pairs are accepted. -/
theorem load_yolo_labels_single_token (path line t : Str) (c : ℤ)
    (hsplit : pySplit (pyStrip line) = [t])
    (hcls : pyInt t = some c) :
    load_yolo_labels [(path, [line])] path = .ok [(c, [])] := by
  have hne := pyStrip_ne_nil_of_split hsplit
  have hpl : processLine [] line = .ok [(c, [])] := by
    unfold processLine
    rw [if_neg hne, hsplit]
    simp [hcls, pyCoords, Except.map]
  unfold load_yolo_labels
  simp [lookupFS, List.foldlM, hpl]

/-- Witness for C9: the one-line file `"5"` loads as one record with class id 5
and an empty polygon. -/
theorem load_yolo_labels_single_token_witness :
    load_yolo_labels [(str "f.txt", [str "5"])] (str "f.txt") = .ok [((5 : ℤ), [])] :=
  load_yolo_labels_single_token (str "f.txt") (str "5") (str "5") 5 (by rfl) (by rfl)

/-- Claim C10: a line whose first token parses as a negative integer yields a
record carrying that negative class id — nothing checks `class_id ≥ 0`. -/
theorem processLine_negative_class_id (labels : List Label) (line p0 : Str)
    (rest : List Str) (c : ℤ) (ps : List (ℚ × ℚ))
    (hsplit : pySplit (pyStrip line) = p0 :: rest)
    (hcls : pyInt p0 = some c)
    (hneg : c < 0)
    (hco : pyCoords rest = .ok ps) :
    processLine labels line = .ok (labels ++ [(c, ps)]) := by
  have hne := pyStrip_ne_nil_of_split hsplit
  unfold processLine
  rw [if_neg hne, hsplit]
  simp [hcls, hco, Except.map]

/-- Witness for C10: the line `"-1 0.1 0.2 0.3 0.4 0.5 0.6"` yields one record
with class id `-1` and the three parsed coordinate pairs. -/
theorem processLine_negative_class_id_witness :
    processLine [] (str "-1 0.1 0.2 0.3 0.4 0.5 0.6") =
      .ok [((-1 : ℤ),
        [(mkRat 1 10, mkRat 1 5), (mkRat 3 10, mkRat 2 5), (mkRat 1 2, mkRat 3 5)])] := by
  rw [processLine_negative_class_id [] (str "-1 0.1 0.2 0.3 0.4 0.5 0.6") (str "-1")
    [str "0.1", str "0.2", str "0.3", str "0.4", str "0.5", str "0.6"] (-1)
    [(mkRat 1 10, mkRat 1 5), (mkRat 3 10, mkRat 2 5), (mkRat 1 2, mkRat 3 5)]
    (by rfl) (by rfl) (by decide) (by decide)]
  rfl

/-- Claim C1 (divergence witness): a file with two valid lines around one
invalid line makes `load_yolo_labels` raise `ValueError` and return nothing —
not two records and one recorded error. -/
theorem load_yolo_labels_mixed_file_raises :
    load_yolo_labels
      [(str "f.txt",
        [str "0 0.1 0.2 0.3 0.4 0.5 0.6",
         str "abc 0.5 0.5 0.5 0.5 0.5 0.5",
         str "1 0.1 0.2 0.3 0.4 0.5 0.6"])] (str "f.txt") =
      .error .valueError := by decide

/-- Claim C2 (divergence witness): on a path naming no existing file,
`load_yolo_labels` raises `FileNotFoundError` instead of returning an empty
result with a `FileAccess` error. -/
theorem load_yolo_labels_missing_file_raises :
    load_yolo_labels [] (str "missing.txt") = .error .fileNotFoundError := by decide

/-- Claim C4 (divergence witness): a non-integer class token, or a coordinate
token that is not a float, makes `load_yolo_labels` raise `ValueError` and
abort the whole file — no `MalformedNumber` error is recorded and the
following line is never scanned. -/
theorem load_yolo_labels_malformed_number_raises :
    (load_yolo_labels
        [(str "f.txt",
          [str "abc 0.1 0.2 0.3 0.4 0.5 0.6",
           str "0 0.1 0.2 0.3 0.4 0.5 0.6"])] (str "f.txt") =
      .error .valueError) ∧
    (load_yolo_labels
        [(str "g.txt",
          [str "0 xx 0.2 0.3 0.4 0.5 0.6",
           str "1 0.1 0.2 0.3 0.4 0.5 0.6"])] (str "g.txt") =
      .error .valueError) := by decide

/-- Claim C5 (divergence witness): an odd coordinate-token count makes
`parts[i + 1]` overrun the token list, so `load_yolo_labels` raises
`IndexError` instead of recording an `OddCoordinateCount` error and
continuing with the next line. -/
theorem load_yolo_labels_odd_coordinate_count_raises :
    load_yolo_labels
      [(str "f.txt",
        [str "1 0.1 0.2 0.3",
         str "0 0.1 0.2 0.3 0.4 0.5 0.6"])] (str "f.txt") =
      .error .indexError := by decide

/-- Claim C6 (divergence witness): on the spec's scenario line
`"2 0.1 0.2 1.5 0.3"`, `load_yolo_labels` returns one record containing the
out-of-range coordinate 1.5 and records no error — there is no
`CoordinateOutOfRange` check anywhere. -/
theorem load_yolo_labels_out_of_range_accepted :
    load_yolo_labels [(str "f.txt", [str "2 0.1 0.2 1.5 0.3"])] (str "f.txt") =
      .ok [((2 : ℤ), [(mkRat 1 10, mkRat 1 5), (mkRat 3 2, mkRat 3 10)])] ∧
    ¬ ((mkRat 3 2 : ℚ) ≤ 1) := by decide

/-- Claim C7 (divergence witness): on the spec's scenario line `"1 0.1 0.2"`,
`load_yolo_labels` returns a record whose polygon has a single point, so the
`≥ 3`-point invariant fails on the output — there is no `TooFewPoints`
check anywhere. -/
theorem load_yolo_labels_too_few_points_accepted :
    load_yolo_labels [(str "f.txt", [str "1 0.1 0.2"])] (str "f.txt") =
      .ok [((1 : ℤ), [(mkRat 1 10, mkRat 1 5)])] ∧
    ([(mkRat 1 10, mkRat 1 5)] : List (ℚ × ℚ)).length < 3 := by decide

/-- Claim C8 (divergence witness): when the first listed `.txt` entry cannot
be opened, the exception from `load_yolo_labels` propagates out of the
directory loop: the loop aborts and the second file, although present and
valid, is never processed. -/
theorem dirLoop_aborts_on_unreadable_file :
    dirLoop [(str ".labels/b.txt", [str "0 0.1 0.2 0.3 0.4 0.5 0.6"])]
      [str "a.txt", str "b.txt"] = .error .fileNotFoundError := by rfl
